import Mathlib

/-!
Verification of the csv-query-engine utility scripts.

The development shallowly embeds the two Yahoo-Finance extraction scripts
(src/scripts/download-real-data.py, the "single-list variant", and
src/scripts/download-comprehensive-data.py, the "multi-sector variant")
and the PDF synthesizer (src/create-test-pdf.py).

Numeric cells are modelled as exact rationals.  A Python value that can be
None, float NaN, or a number is modelled by the type PyVal; pandas NaN is
truthy in Python but rejected by pd.notna, and both behaviours are modelled
explicitly.  Python int() truncates toward zero, which Int.tdiv on the
numerator/denominator of a rational reproduces exactly.
-/

namespace CsvQuery

/-- A Python value as it flows through the scripts: None, float NaN,
or an (exact rational) number. -/
inductive PyVal where
  | none
  | nan
  | num (q : ℚ)
deriving DecidableEq, Repr

/-- Python truthiness of a PyVal: None is falsy, NaN is truthy,
a number is truthy iff it is non-zero. -/
def PyVal.truthy : PyVal → Bool
  | PyVal.none => false
  | PyVal.nan => true
  | PyVal.num q => decide (q ≠ 0)

/-- Model of pd.notna: false on None and NaN, true on a number. -/
def PyVal.notna : PyVal → Bool
  | PyVal.num _ => true
  | _ => false

/-- Division of two cell values as the scripts use it.  Every call site
guards with Python truthiness, so None operands and zero denominators never
reach the division; a NaN operand propagates NaN as in floating point. -/
def pyDiv : PyVal → PyVal → PyVal
  | PyVal.num a, PyVal.num b => PyVal.num (a / b)
  | _, _ => PyVal.nan

/-- Truncation toward zero, the behaviour of Python int() on a float. -/
def ratTrunc (q : ℚ) : ℤ := Int.tdiv q.num (q.den : ℤ)

/-- Model of the conversion pattern int(v) if pd.notna(v) else None
used for every raw line-item field. -/
def intField : PyVal → Option ℤ
  | PyVal.num q => some (ratTrunc q)
  | _ => Option.none

/-- Model of the conversion pattern float(v) if pd.notna(v) else None
used for the margin fields of download-real-data.py. -/
def floatIfNotna (v : PyVal) : PyVal :=
  if v.notna then v else PyVal.none

/-- Model of the ratio pattern (numr / denom) if denom and numr else None,
with the guard written denominator-first exactly as in the scripts
(for example (gross_profit / revenue) if revenue and gross_profit else None). -/
def ratioIf (numr denom : PyVal) : PyVal :=
  if denom.truthy && numr.truthy then pyDiv numr denom else PyVal.none

/-- Calendar date of a reporting-period column (a pandas Timestamp). -/
structure Date where
  year : ℤ
  month : ℕ
  day : ℕ
deriving DecidableEq, Repr

/-- A period column of a statement table.  A malformed column is one whose
use as a timestamp (or any later step of the per-period body) raises, which
the scripts catch per period. -/
inductive Period where
  | valid (d : Date)
  | malformed
deriving DecidableEq, Repr

/-- Quarter label, f"Q{(month - 1) // 3 + 1}" in both scripts.
Months are 1-based, so natural subtraction agrees with Python here. -/
def quarterLabel (month : ℕ) : String :=
  "Q" ++ toString ((month - 1) / 3 + 1)

/-- Two-digit zero padding used by strftime for months and days. -/
def pad2 (n : ℕ) : String :=
  if n < 10 then "0" ++ toString n else toString n

/-- Model of quarter_date.strftime('%Y-%m-%d'). -/
def fmtDate (d : Date) : String :=
  toString d.year ++ "-" ++ pad2 d.month ++ "-" ++ pad2 d.day

/-- A quarterly statement table as the scripts see it: a set of row labels
(the index), the period columns in provider order (newest first), and the
cell contents addressed by row label and period. -/
structure StmtTable where
  index : List String
  cols : List Period
  cell : String → Period → PyVal

/-- Model of the pandas DataFrame.empty test: true when the table has no
rows or no columns. -/
def StmtTable.isEmpty (t : StmtTable) : Bool :=
  t.index.isEmpty || t.cols.isEmpty

/-- Model of the lookup pattern
table.loc[label, col] if label in table.index else None. -/
def lookupItem (t : StmtTable) (label : String) (p : Period) : PyVal :=
  if label ∈ t.index then t.cell label p else PyVal.none

/-- Model of the guarded lookup on an optional table:
table.loc[label, col] if table is not None and label in table.index else None. -/
def lookupOpt (t : Option StmtTable) (label : String) (p : Period) : PyVal :=
  match t with
  | some tb => if label ∈ tb.index then tb.cell label p else PyVal.none
  | Option.none => PyVal.none

/-- The three statement tables fetched for one ticker; each property can be
None (modelled as Option.none). -/
structure Statements where
  income : Option StmtTable
  balance : Option StmtTable
  cashflow : Option StmtTable

/-- Outcome of fetching one ticker from the provider: the tables, or a
provider-level failure (the outer per-ticker try/except). -/
inductive Fetch where
  | ok (s : Statements)
  | err

/-- The EBITDA fallback of download-real-data.py lines 58-64:
ebitda = None; if 'EBITDA' in index: ebitda = loc['EBITDA', col];
elif operating_income is not None: ebitda = operating_income. -/
def ebitdaVal (qi : StmtTable) (p : Period) : PyVal :=
  if "EBITDA" ∈ qi.index then qi.cell "EBITDA" p
  else if lookupItem qi "Operating Income" p ≠ PyVal.none then
    lookupItem qi "Operating Income" p
  else PyVal.none

/-- One output row of download-real-data.py (the row dict of lines 79-97). -/
structure FinancialRecord where
  company : String
  ticker : String
  quarter : String
  year : ℤ
  date : String
  revenue : Option ℤ
  gross_profit : Option ℤ
  ebitda : Option ℤ
  operating_income : Option ℤ
  net_income : Option ℤ
  total_assets : Option ℤ
  total_debt : Option ℤ
  operating_cashflow : Option ℤ
  free_cashflow : Option ℤ
  gross_margin : PyVal
  operating_margin : PyVal
  net_margin : PyVal
deriving DecidableEq, Repr

/-- The body of the per-quarter loop of download-real-data.py lines 47-99
for a well-formed period column: the line-item lookups, the EBITDA
fallback, the margin calculations and the row dict. -/
def realRow (company_name ticker : String) (qi : StmtTable)
    (qb qc : Option StmtTable) (d : Date) : FinancialRecord :=
  let col := Period.valid d
  let revenue := lookupItem qi "Total Revenue" col
  let gross_profit := lookupItem qi "Gross Profit" col
  let operating_income := lookupItem qi "Operating Income" col
  let net_income := lookupItem qi "Net Income" col
  let ebitda := ebitdaVal qi col
  let total_assets := lookupOpt qb "Total Assets" col
  let total_debt := lookupOpt qb "Total Debt" col
  let operating_cashflow := lookupOpt qc "Operating Cash Flow" col
  let free_cashflow := lookupOpt qc "Free Cash Flow" col
  let gross_margin := ratioIf gross_profit revenue
  let operating_margin := ratioIf operating_income revenue
  let net_margin := ratioIf net_income revenue
  { company := company_name
    ticker := ticker
    quarter := quarterLabel d.month
    year := d.year
    date := fmtDate d
    revenue := intField revenue
    gross_profit := intField gross_profit
    ebitda := intField ebitda
    operating_income := intField operating_income
    net_income := intField net_income
    total_assets := intField total_assets
    total_debt := intField total_debt
    operating_cashflow := intField operating_cashflow
    free_cashflow := intField free_cashflow
    gross_margin := floatIfNotna gross_margin
    operating_margin := floatIfNotna operating_margin
    net_margin := floatIfNotna net_margin }

/-- One iteration of the per-quarter loop with its try/except: a malformed
period column raises and is skipped (continue), producing no record. -/
def processPeriodReal (company_name ticker : String) (qi : StmtTable)
    (qb qc : Option StmtTable) : Period → Option FinancialRecord
  | Period.valid d => some (realRow company_name ticker qi qb qc d)
  | Period.malformed => Option.none

/-- The per-quarter loop of download-real-data.py line 46:
for col in quarterly_income.columns[:8], appending one row per period that
survives its try/except. -/
def periodRecordsReal (company_name ticker : String) (qi : StmtTable)
    (qb qc : Option StmtTable) : List FinancialRecord :=
  (qi.cols.take 8).filterMap (processPeriodReal company_name ticker qi qb qc)

/-- The per-ticker body of download-real-data.py lines 33-108: a
provider-level failure skips the ticker, an absent or empty income
statement skips the ticker, otherwise the period loop runs. -/
def processTickerReal (fetch : String → Fetch) (ticker company_name : String) :
    List FinancialRecord :=
  match fetch ticker with
  | Fetch.err => []
  | Fetch.ok s =>
    match s.income with
    | Option.none => []
    | some qi =>
      if qi.isEmpty then []
      else periodRecordsReal company_name ticker qi s.balance s.cashflow

/-- The accumulation loop of download-real-data.py lines 28-108:
all_data collects the rows of every ticker in mapping order. -/
def runReal (fetch : String → Fetch) (companies : List (String × String)) :
    List FinancialRecord :=
  companies.flatMap (fun c => processTickerReal fetch c.1 c.2)

/-- The fixed company mapping of download-real-data.py lines 11-22. -/
def realCompanies : List (String × String) :=
  [("AAPL", "Apple Inc"),
   ("MSFT", "Microsoft Corporation"),
   ("GOOGL", "Alphabet Inc"),
   ("AMZN", "Amazon.com Inc"),
   ("TSLA", "Tesla Inc"),
   ("JPM", "JPMorgan Chase"),
   ("JNJ", "Johnson & Johnson"),
   ("V", "Visa Inc"),
   ("WMT", "Walmart Inc"),
   ("PG", "Procter & Gamble")]

/-- Sort key of df.sort_values(['Company', 'Year', 'Quarter']). -/
def recKey (r : FinancialRecord) : String × ℤ × String :=
  (r.company, r.year, r.quarter)

/-- Lexicographic order on (company, year, quarter label) keys. -/
def keyLE (a b : String × ℤ × String) : Prop :=
  a.1 < b.1 ∨ (a.1 = b.1 ∧ (a.2.1 < b.2.1 ∨ (a.2.1 = b.2.1 ∧ a.2.2 ≤ b.2.2)))

instance (a b : String × ℤ × String) : Decidable (keyLE a b) := by
  unfold keyLE; infer_instance

/-- Boolean comparison of two records by (company, year, quarter label). -/
def recLE (a b : FinancialRecord) : Bool := decide (keyLE (recKey a) (recKey b))

/-- Model of the stable sort df.sort_values(['Company', 'Year', 'Quarter'])
applied at download-real-data.py line 117 before the file is written. -/
def sortRecords (l : List FinancialRecord) : List FinancialRecord :=
  l.mergeSort recLE

/-- The record sequence download-real-data.py hands to to_csv: the
accumulated records of the fixed mapping, sorted (lines 114-121). -/
def outputReal (fetch : String → Fetch) : List FinancialRecord :=
  sortRecords (runReal fetch realCompanies)

/-- A value stored in one of the multi-sector record dicts: the dict
values are strings, the Year int, int-or-None line items, and
float-or-None ratios (a PyVal, since NaN can be stored directly). -/
inductive EntryVal where
  | str (s : String)
  | int (n : ℤ)
  | optInt (v : Option ℤ)
  | val (v : PyVal)
deriving DecidableEq, Repr

/-- A record of the multi-sector variant, as the ordered dict the script
builds: field name paired with field value. -/
def SectorRow : Type := List (String × EntryVal)

instance : DecidableEq SectorRow := by
  unfold SectorRow; infer_instance

/-- Entry of a sector record under a field name. -/
def entryOf (row : SectorRow) (k : String) : Option EntryVal :=
  (row.find? (fun e => e.1 == k)).map Prod.snd

/-- Ratio-valued entry of a sector record (PyVal.none when the field is
missing or not ratio-valued). -/
def entryVal (row : SectorRow) (k : String) : PyVal :=
  match entryOf row k with
  | some (EntryVal.val v) => v
  | _ => PyVal.none

/-- Int-or-None entry of a sector record (Option.none when the field is
missing or not of that shape). -/
def entryInt (row : SectorRow) (k : String) : Option ℤ :=
  match entryOf row k with
  | some (EntryVal.optInt v) => v
  | _ => Option.none

/-- The technology-sector record dict of download-comprehensive-data.py
lines 42-66 (lookups and the tech_data.append literal). -/
def techRow (name ticker : String) (income : StmtTable) (d : Date) : SectorRow :=
  let col := Period.valid d
  let revenue := lookupItem income "Total Revenue" col
  let gross_profit := lookupItem income "Gross Profit" col
  let operating_income := lookupItem income "Operating Income" col
  let net_income := lookupItem income "Net Income" col
  let rd_expense := lookupItem income "Research And Development" col
  [("Company", EntryVal.str name),
   ("Ticker", EntryVal.str ticker),
   ("Quarter", EntryVal.str (quarterLabel d.month)),
   ("Year", EntryVal.int d.year),
   ("Date", EntryVal.str (fmtDate d)),
   ("Revenue", EntryVal.optInt (intField revenue)),
   ("Gross_Profit", EntryVal.optInt (intField gross_profit)),
   ("Operating_Income", EntryVal.optInt (intField operating_income)),
   ("Net_Income", EntryVal.optInt (intField net_income)),
   ("RD_Expense", EntryVal.optInt (intField rd_expense)),
   ("Gross_Margin", EntryVal.val (ratioIf gross_profit revenue)),
   ("Operating_Margin", EntryVal.val (ratioIf operating_income revenue)),
   ("Net_Margin", EntryVal.val (ratioIf net_income revenue)),
   ("RD_Intensity", EntryVal.val (ratioIf rd_expense revenue))]

/-- The healthcare-sector record dict of download-comprehensive-data.py
lines 100-119. -/
def healthcareRow (name ticker : String) (income : StmtTable) (d : Date) : SectorRow :=
  let col := Period.valid d
  let revenue := lookupItem income "Total Revenue" col
  let gross_profit := lookupItem income "Gross Profit" col
  let net_income := lookupItem income "Net Income" col
  let rd_expense := lookupItem income "Research And Development" col
  [("Company", EntryVal.str name),
   ("Ticker", EntryVal.str ticker),
   ("Quarter", EntryVal.str (quarterLabel d.month)),
   ("Year", EntryVal.int d.year),
   ("Date", EntryVal.str (fmtDate d)),
   ("Revenue", EntryVal.optInt (intField revenue)),
   ("Gross_Profit", EntryVal.optInt (intField gross_profit)),
   ("Net_Income", EntryVal.optInt (intField net_income)),
   ("RD_Expense", EntryVal.optInt (intField rd_expense)),
   ("Gross_Margin", EntryVal.val (ratioIf gross_profit revenue)),
   ("Net_Margin", EntryVal.val (ratioIf net_income revenue))]

/-- The financial-sector record dict of download-comprehensive-data.py
lines 153-170. -/
def financialRow (name ticker : String) (income : StmtTable) (d : Date) : SectorRow :=
  let col := Period.valid d
  let revenue := lookupItem income "Total Revenue" col
  let net_income := lookupItem income "Net Income" col
  let operating_income := lookupItem income "Operating Income" col
  [("Company", EntryVal.str name),
   ("Ticker", EntryVal.str ticker),
   ("Quarter", EntryVal.str (quarterLabel d.month)),
   ("Year", EntryVal.int d.year),
   ("Date", EntryVal.str (fmtDate d)),
   ("Revenue", EntryVal.optInt (intField revenue)),
   ("Operating_Income", EntryVal.optInt (intField operating_income)),
   ("Net_Income", EntryVal.optInt (intField net_income)),
   ("Operating_Margin", EntryVal.val (ratioIf operating_income revenue)),
   ("Net_Margin", EntryVal.val (ratioIf net_income revenue))]

/-- The consumer/retail-sector record dict of download-comprehensive-data.py
lines 204-224. -/
def consumerRow (name ticker : String) (income : StmtTable) (d : Date) : SectorRow :=
  let col := Period.valid d
  let revenue := lookupItem income "Total Revenue" col
  let gross_profit := lookupItem income "Gross Profit" col
  let operating_income := lookupItem income "Operating Income" col
  let net_income := lookupItem income "Net Income" col
  [("Company", EntryVal.str name),
   ("Ticker", EntryVal.str ticker),
   ("Quarter", EntryVal.str (quarterLabel d.month)),
   ("Year", EntryVal.int d.year),
   ("Date", EntryVal.str (fmtDate d)),
   ("Revenue", EntryVal.optInt (intField revenue)),
   ("Gross_Profit", EntryVal.optInt (intField gross_profit)),
   ("Operating_Income", EntryVal.optInt (intField operating_income)),
   ("Net_Income", EntryVal.optInt (intField net_income)),
   ("Gross_Margin", EntryVal.val (ratioIf gross_profit revenue)),
   ("Operating_Margin", EntryVal.val (ratioIf operating_income revenue)),
   ("Net_Margin", EntryVal.val (ratioIf net_income revenue))]

/-- The energy-sector record dict of download-comprehensive-data.py
lines 255-272. -/
def energyRow (name ticker : String) (income : StmtTable) (d : Date) : SectorRow :=
  let col := Period.valid d
  let revenue := lookupItem income "Total Revenue" col
  let gross_profit := lookupItem income "Gross Profit" col
  let net_income := lookupItem income "Net Income" col
  [("Company", EntryVal.str name),
   ("Ticker", EntryVal.str ticker),
   ("Quarter", EntryVal.str (quarterLabel d.month)),
   ("Year", EntryVal.int d.year),
   ("Date", EntryVal.str (fmtDate d)),
   ("Revenue", EntryVal.optInt (intField revenue)),
   ("Gross_Profit", EntryVal.optInt (intField gross_profit)),
   ("Net_Income", EntryVal.optInt (intField net_income)),
   ("Gross_Margin", EntryVal.val (ratioIf gross_profit revenue)),
   ("Net_Margin", EntryVal.val (ratioIf net_income revenue))]

/-- The per-quarter loop shared by all five sector loops of
download-comprehensive-data.py (for col in income.columns[:6] with a
per-period try/except), parameterized by the sector's record dict. -/
def periodRowsSector (row : String → String → StmtTable → Date → SectorRow)
    (name ticker : String) (income : StmtTable) : List SectorRow :=
  (income.cols.take 6).filterMap (fun p =>
    match p with
    | Period.valid d => some (row name ticker income d)
    | Period.malformed => Option.none)

/-- The per-ticker body shared by all five sector loops: a provider-level
failure skips the ticker, an absent or empty income statement skips the
ticker, otherwise the period loop runs.  (The technology loop also fetches
balance and cash-flow tables but never reads them.) -/
def processTickerSector (row : String → String → StmtTable → Date → SectorRow)
    (fetch : String → Fetch) (ticker name : String) : List SectorRow :=
  match fetch ticker with
  | Fetch.err => []
  | Fetch.ok s =>
    match s.income with
    | Option.none => []
    | some qi =>
      if qi.isEmpty then []
      else periodRowsSector row name ticker qi

/-- One sector's accumulation loop: the sector list (tech_data,
healthcare_data, ...) collects the rows of every ticker in mapping order,
and is written to its CSV unsorted. -/
def runSector (row : String → String → StmtTable → Date → SectorRow)
    (fetch : String → Fetch) (companies : List (String × String)) : List SectorRow :=
  companies.flatMap (fun c => processTickerSector row fetch c.1 c.2)

/-- The fixed technology mapping of download-comprehensive-data.py lines 17-28. -/
def techCompanies : List (String × String) :=
  [("AAPL", "Apple Inc"),
   ("MSFT", "Microsoft Corporation"),
   ("GOOGL", "Alphabet Inc"),
   ("META", "Meta Platforms"),
   ("NVDA", "NVIDIA Corporation"),
   ("ORCL", "Oracle Corporation"),
   ("ADBE", "Adobe Inc"),
   ("CRM", "Salesforce Inc"),
   ("INTC", "Intel Corporation"),
   ("AMD", "Advanced Micro Devices")]

/-- The fixed healthcare mapping of download-comprehensive-data.py lines 79-88. -/
def healthcareCompanies : List (String × String) :=
  [("JNJ", "Johnson & Johnson"),
   ("UNH", "UnitedHealth Group"),
   ("PFE", "Pfizer Inc"),
   ("ABBV", "AbbVie Inc"),
   ("TMO", "Thermo Fisher Scientific"),
   ("ABT", "Abbott Laboratories"),
   ("MRK", "Merck & Co"),
   ("LLY", "Eli Lilly")]

/-- The fixed financial mapping of download-comprehensive-data.py lines 132-141. -/
def financialCompanies : List (String × String) :=
  [("JPM", "JPMorgan Chase"),
   ("BAC", "Bank of America"),
   ("WFC", "Wells Fargo"),
   ("GS", "Goldman Sachs"),
   ("MS", "Morgan Stanley"),
   ("C", "Citigroup"),
   ("BLK", "BlackRock"),
   ("AXP", "American Express")]

/-- The fixed consumer/retail mapping of download-comprehensive-data.py
lines 183-192. -/
def consumerCompanies : List (String × String) :=
  [("AMZN", "Amazon.com Inc"),
   ("WMT", "Walmart Inc"),
   ("HD", "Home Depot"),
   ("NKE", "Nike Inc"),
   ("MCD", "McDonalds Corporation"),
   ("SBUX", "Starbucks Corporation"),
   ("TGT", "Target Corporation"),
   ("COST", "Costco Wholesale")]

/-- The fixed energy mapping of download-comprehensive-data.py lines 237-243. -/
def energyCompanies : List (String × String) :=
  [("XOM", "Exxon Mobil"),
   ("CVX", "Chevron Corporation"),
   ("COP", "ConocoPhillips"),
   ("SLB", "Schlumberger"),
   ("EOG", "EOG Resources")]

/-- Sort key a sector record would have under Company/Year/Quarter. -/
def rowKey (r : SectorRow) : String × ℤ × String :=
  (match entryOf r "Company" with
   | some (EntryVal.str s) => s
   | _ => "",
   match entryOf r "Year" with
   | some (EntryVal.int n) => n
   | _ => 0,
   match entryOf r "Quarter" with
   | some (EntryVal.str s) => s
   | _ => "")

/-- Boolean comparison of two sector records by (Company, Year, Quarter). -/
def rowLE (a b : SectorRow) : Bool := decide (keyLE (rowKey a) (rowKey b))

/-- A flowable handed to the document renderer by create-test-pdf.py: a
styled paragraph, a spacer, or the explicit page break.  Style attributes
beyond the style name (font size, colors, margins of the SimpleDocTemplate)
belong to the external renderer and are out of scope. -/
inductive Flowable where
  | paragraph (text style : String)
  | spacer (width height : ℚ)
  | pageBreak
deriving DecidableEq, Repr

/-- Points per inch, reportlab.lib.units.inch. -/
def inch : ℚ := 72

/-- Text of the executive-summary paragraph (create-test-pdf.py lines 55-57),
with the newlines and indentation of the Python triple-quoted literal. -/
def execSummaryText : String :=
  "Titan Capital Partners proposes to acquire 100% of ACME Manufacturing Corp for an\n        enterprise value of $450 million. ACME is a leading manufacturer of industrial\n        components with strong market position and consistent cash flows."

/-- Text of the risk-factors paragraph (create-test-pdf.py lines 90-94). -/
def riskFactorsText : String :=
  "• Customer concentration (top 3 customers = 45% revenue)<br/>\n        • Competitive pressure from low-cost overseas manufacturers<br/>\n        • Raw material price volatility (steel, aluminum)<br/>\n        • Dependency on automotive sector (35% of revenue)<br/>\n        • Key personnel retention post-acquisition"

/-- Text of the management-team paragraph (create-test-pdf.py lines 121-125). -/
def managementTeamText : String :=
  "CEO: John Smith (retained, 15 years experience)<br/>\n        CFO: Sarah Johnson (new hire, ex-Big 4)<br/>\n        COO: Mike Williams (promoted internally)<br/>\n        VP Sales: Lisa Brown (retained, 20 years)<br/>\n        VP Operations: David Lee (new hire, lean manufacturing expert)"

/-- The elements list of create_pe_deal_memo_pdf (create-test-pdf.py lines
19-136), built append by append exactly as in the source and finally handed
to doc.build. -/
def elementsFinal : List Flowable :=
  let elements : List Flowable := []
  let elements := elements.concat (Flowable.paragraph "CONFIDENTIAL - DEAL MEMORANDUM" "CustomTitle")
  let elements := elements.concat (Flowable.spacer 1 ((0.2 : ℚ) * inch))
  let elements := elements.concat (Flowable.paragraph "EXECUTIVE SUMMARY" "CustomHeading")
  let elements := elements.concat (Flowable.paragraph execSummaryText "BodyText")
  let elements := elements.concat (Flowable.spacer 1 ((0.2 : ℚ) * inch))
  let elements := elements.concat (Flowable.paragraph "KEY METRICS" "CustomHeading")
  let elements := elements.concat (Flowable.paragraph "• Enterprise Value: $450M" "BodyText")
  let elements := elements.concat (Flowable.paragraph "• Equity Investment: $180M (40%)" "BodyText")
  let elements := elements.concat (Flowable.paragraph "• Debt Financing: $270M (60%)" "BodyText")
  let elements := elements.concat (Flowable.paragraph "• Entry Multiple: 8.5x LTM EBITDA" "BodyText")
  let elements := elements.concat (Flowable.paragraph "• Current EBITDA: $53M" "BodyText")
  let elements := elements.concat (Flowable.spacer 1 ((0.2 : ℚ) * inch))
  let elements := elements.concat (Flowable.paragraph "FINANCIAL PROJECTIONS" "CustomHeading")
  let elements := elements.concat (Flowable.paragraph "Year 1: Revenue $340M, EBITDA $72M (22.4% margin)" "BodyText")
  let elements := elements.concat (Flowable.paragraph "Year 2: Revenue $385M, EBITDA $85M (22.1% margin)" "BodyText")
  let elements := elements.concat (Flowable.paragraph "Year 3: Revenue $440M, EBITDA $101M (23.0% margin)" "BodyText")
  let elements := elements.concat (Flowable.paragraph "Year 4: Revenue $510M, EBITDA $122M (23.9% margin)" "BodyText")
  let elements := elements.concat (Flowable.paragraph "Year 5: Revenue $595M, EBITDA $149M (25.0% margin)" "BodyText")
  let elements := elements.concat (Flowable.spacer 1 ((0.2 : ℚ) * inch))
  let elements := elements.concat (Flowable.paragraph "EXIT STRATEGY" "CustomHeading")
  let elements := elements.concat (Flowable.paragraph "Target exit multiple: 8.5x EBITDA" "BodyText")
  let elements := elements.concat (Flowable.paragraph "Projected exit value: $1,267M (at Year 5 EBITDA)" "BodyText")
  let elements := elements.concat (Flowable.paragraph "Expected return: 3.5x MOIC, 28% IRR" "BodyText")
  let elements := elements.concat (Flowable.spacer 1 ((0.2 : ℚ) * inch))
  let elements := elements.concat (Flowable.paragraph "RISK FACTORS" "CustomHeading")
  let elements := elements.concat (Flowable.paragraph riskFactorsText "BodyText")
  let elements := elements.concat (Flowable.spacer 1 ((0.2 : ℚ) * inch))
  let elements := elements.concat (Flowable.paragraph "VALUE CREATION PLAN" "CustomHeading")
  let elements := elements.concat (Flowable.paragraph "1. Operational Excellence" "BodyText")
  let elements := elements.concat (Flowable.paragraph "   - Implement lean manufacturing (target: 15% OPEX reduction)" "BodyText")
  let elements := elements.concat (Flowable.paragraph "   - Upgrade ERP system for better inventory management" "BodyText")
  let elements := elements.concat (Flowable.paragraph "   - Consolidate 3 facilities into 2 modern plants" "BodyText")
  let elements := elements.concat (Flowable.spacer 1 ((0.1 : ℚ) * inch))
  let elements := elements.concat (Flowable.paragraph "2. Revenue Growth" "BodyText")
  let elements := elements.concat (Flowable.paragraph "   - Expand into aerospace sector (high-margin, stable)" "BodyText")
  let elements := elements.concat (Flowable.paragraph "   - Launch e-commerce channel for smaller customers" "BodyText")
  let elements := elements.concat (Flowable.paragraph "   - Geographic expansion: Southeast US and Mexico" "BodyText")
  let elements := elements.concat (Flowable.spacer 1 ((0.1 : ℚ) * inch))
  let elements := elements.concat (Flowable.paragraph "3. M&A Strategy" "BodyText")
  let elements := elements.concat (Flowable.paragraph "   - Acquire 2-3 complementary manufacturers" "BodyText")
  let elements := elements.concat (Flowable.paragraph "   - Budget: $50-75M for bolt-on acquisitions" "BodyText")
  let elements := elements.concat Flowable.pageBreak
  let elements := elements.concat (Flowable.paragraph "MANAGEMENT TEAM" "CustomHeading")
  let elements := elements.concat (Flowable.paragraph managementTeamText "BodyText")
  let elements := elements.concat (Flowable.spacer 1 ((0.2 : ℚ) * inch))
  let elements := elements.concat (Flowable.paragraph "DUE DILIGENCE SUMMARY" "CustomHeading")
  let elements := elements.concat (Flowable.paragraph "Financial: Clean audit, no material issues" "BodyText")
  let elements := elements.concat (Flowable.paragraph "Legal: One minor ongoing lawsuit, well-reserved" "BodyText")
  let elements := elements.concat (Flowable.paragraph "Environmental: All facilities compliant, no contamination" "BodyText")
  let elements := elements.concat (Flowable.paragraph "Commercial: Strong customer relationships, no major churn risk" "BodyText")
  let elements := elements.concat (Flowable.paragraph "IT: Legacy systems, modernization needed (budgeted)" "BodyText")
  elements

/-- The same flowables in their declaration order, as a plain list. -/
def declaredBlocks : List Flowable :=
  [Flowable.paragraph "CONFIDENTIAL - DEAL MEMORANDUM" "CustomTitle",
   Flowable.spacer 1 ((0.2 : ℚ) * inch),
   Flowable.paragraph "EXECUTIVE SUMMARY" "CustomHeading",
   Flowable.paragraph execSummaryText "BodyText",
   Flowable.spacer 1 ((0.2 : ℚ) * inch),
   Flowable.paragraph "KEY METRICS" "CustomHeading",
   Flowable.paragraph "• Enterprise Value: $450M" "BodyText",
   Flowable.paragraph "• Equity Investment: $180M (40%)" "BodyText",
   Flowable.paragraph "• Debt Financing: $270M (60%)" "BodyText",
   Flowable.paragraph "• Entry Multiple: 8.5x LTM EBITDA" "BodyText",
   Flowable.paragraph "• Current EBITDA: $53M" "BodyText",
   Flowable.spacer 1 ((0.2 : ℚ) * inch),
   Flowable.paragraph "FINANCIAL PROJECTIONS" "CustomHeading",
   Flowable.paragraph "Year 1: Revenue $340M, EBITDA $72M (22.4% margin)" "BodyText",
   Flowable.paragraph "Year 2: Revenue $385M, EBITDA $85M (22.1% margin)" "BodyText",
   Flowable.paragraph "Year 3: Revenue $440M, EBITDA $101M (23.0% margin)" "BodyText",
   Flowable.paragraph "Year 4: Revenue $510M, EBITDA $122M (23.9% margin)" "BodyText",
   Flowable.paragraph "Year 5: Revenue $595M, EBITDA $149M (25.0% margin)" "BodyText",
   Flowable.spacer 1 ((0.2 : ℚ) * inch),
   Flowable.paragraph "EXIT STRATEGY" "CustomHeading",
   Flowable.paragraph "Target exit multiple: 8.5x EBITDA" "BodyText",
   Flowable.paragraph "Projected exit value: $1,267M (at Year 5 EBITDA)" "BodyText",
   Flowable.paragraph "Expected return: 3.5x MOIC, 28% IRR" "BodyText",
   Flowable.spacer 1 ((0.2 : ℚ) * inch),
   Flowable.paragraph "RISK FACTORS" "CustomHeading",
   Flowable.paragraph riskFactorsText "BodyText",
   Flowable.spacer 1 ((0.2 : ℚ) * inch),
   Flowable.paragraph "VALUE CREATION PLAN" "CustomHeading",
   Flowable.paragraph "1. Operational Excellence" "BodyText",
   Flowable.paragraph "   - Implement lean manufacturing (target: 15% OPEX reduction)" "BodyText",
   Flowable.paragraph "   - Upgrade ERP system for better inventory management" "BodyText",
   Flowable.paragraph "   - Consolidate 3 facilities into 2 modern plants" "BodyText",
   Flowable.spacer 1 ((0.1 : ℚ) * inch),
   Flowable.paragraph "2. Revenue Growth" "BodyText",
   Flowable.paragraph "   - Expand into aerospace sector (high-margin, stable)" "BodyText",
   Flowable.paragraph "   - Launch e-commerce channel for smaller customers" "BodyText",
   Flowable.paragraph "   - Geographic expansion: Southeast US and Mexico" "BodyText",
   Flowable.spacer 1 ((0.1 : ℚ) * inch),
   Flowable.paragraph "3. M&A Strategy" "BodyText",
   Flowable.paragraph "   - Acquire 2-3 complementary manufacturers" "BodyText",
   Flowable.paragraph "   - Budget: $50-75M for bolt-on acquisitions" "BodyText",
   Flowable.pageBreak,
   Flowable.paragraph "MANAGEMENT TEAM" "CustomHeading",
   Flowable.paragraph managementTeamText "BodyText",
   Flowable.spacer 1 ((0.2 : ℚ) * inch),
   Flowable.paragraph "DUE DILIGENCE SUMMARY" "CustomHeading",
   Flowable.paragraph "Financial: Clean audit, no material issues" "BodyText",
   Flowable.paragraph "Legal: One minor ongoing lawsuit, well-reserved" "BodyText",
   Flowable.paragraph "Environmental: All facilities compliant, no contamination" "BodyText",
   Flowable.paragraph "Commercial: Strong customer relationships, no major churn risk" "BodyText",
   Flowable.paragraph "IT: Legacy systems, modernization needed (budgeted)" "BodyText"]

/-- Specification predicate for a derived ratio field: the field is a
number only if both operands are numbers with a non-zero denominator and it
is exactly their quotient; and whenever the denominator is absent, missing
(NaN) or zero, the field holds no number. -/
def ratioOK (numr denom field : PyVal) : Prop :=
  (∀ q : ℚ, field = PyVal.num q →
    ∃ a b : ℚ, numr = PyVal.num a ∧ denom = PyVal.num b ∧ b ≠ 0 ∧ q = a / b) ∧
  ((denom = PyVal.none ∨ denom = PyVal.nan ∨ denom = PyVal.num 0) → field.notna = false)

/-- Specification predicate for a raw line-item field: a numeric source
value is stored as its truncation toward zero, and a missing source value
(None or NaN) yields an absent field, never zero. -/
def truncOK (src : PyVal) (field : Option ℤ) : Prop :=
  (∀ q : ℚ, src = PyVal.num q → field = some (ratTrunc q)) ∧
  (src.notna = false → field = Option.none)

/-- Specification predicate: when both operands are present non-zero
numbers, the ratio field is their exact, untruncated quotient. -/
def fromUntruncated (numr denom field : PyVal) : Prop :=
  ∀ a b : ℚ, numr = PyVal.num a → denom = PyVal.num b → a ≠ 0 → b ≠ 0 →
    field = PyVal.num (a / b)

theorem floatIfNotna_eq_num {v : PyVal} {q : ℚ} :
    floatIfNotna v = PyVal.num q ↔ v = PyVal.num q := by
  cases v <;> simp [floatIfNotna, PyVal.notna]

theorem notna_floatIfNotna (v : PyVal) : (floatIfNotna v).notna = v.notna := by
  cases v <;> simp [floatIfNotna, PyVal.notna]

theorem ratioOK_ratioIf (numr denom : PyVal) : ratioOK numr denom (ratioIf numr denom) := by
  constructor
  · intro q hq
    cases numr with
    | none =>
      cases denom <;> simp [ratioIf, PyVal.truthy, pyDiv] at hq
    | nan =>
      cases denom with
      | none => simp [ratioIf, PyVal.truthy] at hq
      | nan => simp [ratioIf, PyVal.truthy, pyDiv] at hq
      | num b =>
        by_cases hb : b = 0 <;> simp [ratioIf, PyVal.truthy, pyDiv, hb] at hq
    | num a =>
      cases denom with
      | none => simp [ratioIf, PyVal.truthy] at hq
      | nan =>
        by_cases ha : a = 0 <;> simp [ratioIf, PyVal.truthy, pyDiv, ha] at hq
      | num b =>
        by_cases hb : b = 0
        · simp [ratioIf, PyVal.truthy, hb] at hq
        · by_cases ha : a = 0
          · simp [ratioIf, PyVal.truthy, ha] at hq
          · refine ⟨a, b, rfl, rfl, hb, ?_⟩
            simp [ratioIf, PyVal.truthy, pyDiv, ha, hb] at hq
            exact hq.symm
  · intro hd
    rcases hd with h | h | h <;> subst h
    · cases numr <;> simp [ratioIf, PyVal.truthy, pyDiv, PyVal.notna]
    · cases numr with
      | none => simp [ratioIf, PyVal.truthy, pyDiv, PyVal.notna]
      | nan => simp [ratioIf, PyVal.truthy, pyDiv, PyVal.notna]
      | num q =>
        by_cases hq : q = 0 <;> simp [ratioIf, PyVal.truthy, pyDiv, PyVal.notna, hq]
    · cases numr <;> simp [ratioIf, PyVal.truthy, pyDiv, PyVal.notna]

theorem ratioOK_float_ratioIf (numr denom : PyVal) :
    ratioOK numr denom (floatIfNotna (ratioIf numr denom)) := by
  obtain ⟨h1, h2⟩ := ratioOK_ratioIf numr denom
  constructor
  · intro q hq
    exact h1 q (floatIfNotna_eq_num.mp hq)
  · intro hd
    rw [notna_floatIfNotna]
    exact h2 hd

theorem truncOK_intField (v : PyVal) : truncOK v (intField v) := by
  constructor
  · intro q hq
    subst hq
    rfl
  · intro h
    cases v with
    | none => rfl
    | nan => rfl
    | num q => simp [PyVal.notna] at h

theorem fromUntruncated_ratioIf (numr denom : PyVal) :
    fromUntruncated numr denom (ratioIf numr denom) := by
  intro a b ha hb ha0 hb0
  subst ha
  subst hb
  simp [ratioIf, PyVal.truthy, ha0, hb0, pyDiv]

theorem fromUntruncated_float_ratioIf (numr denom : PyVal) :
    fromUntruncated numr denom (floatIfNotna (ratioIf numr denom)) := by
  intro a b ha hb ha0 hb0
  rw [fromUntruncated_ratioIf numr denom a b ha hb ha0 hb0]
  rfl

theorem keyLE_trans (a b c : String × ℤ × String)
    (h1 : keyLE a b) (h2 : keyLE b c) : keyLE a c := by
  rcases h1 with h1 | ⟨e1, i1⟩
  · rcases h2 with h2 | ⟨e2, _⟩
    · exact Or.inl (lt_trans h1 h2)
    · exact Or.inl (lt_of_lt_of_eq h1 e2)
  · rcases h2 with h2 | ⟨e2, i2⟩
    · exact Or.inl (lt_of_eq_of_lt e1 h2)
    · refine Or.inr ⟨e1.trans e2, ?_⟩
      rcases i1 with i1 | ⟨f1, g1⟩
      · rcases i2 with i2 | ⟨f2, _⟩
        · exact Or.inl (lt_trans i1 i2)
        · exact Or.inl (lt_of_lt_of_eq i1 f2)
      · rcases i2 with i2 | ⟨f2, g2⟩
        · exact Or.inl (lt_of_eq_of_lt f1 i2)
        · exact Or.inr ⟨f1.trans f2, le_trans g1 g2⟩

theorem keyLE_total (a b : String × ℤ × String) : keyLE a b ∨ keyLE b a := by
  rcases lt_trichotomy a.1 b.1 with h | h | h
  · exact Or.inl (Or.inl h)
  · rcases lt_trichotomy a.2.1 b.2.1 with h2 | h2 | h2
    · exact Or.inl (Or.inr ⟨h, Or.inl h2⟩)
    · rcases le_total a.2.2 b.2.2 with h3 | h3
      · exact Or.inl (Or.inr ⟨h, Or.inr ⟨h2, h3⟩⟩)
      · exact Or.inr (Or.inr ⟨h.symm, Or.inr ⟨h2.symm, h3⟩⟩)
    · exact Or.inr (Or.inr ⟨h.symm, Or.inl h2⟩)
  · exact Or.inr (Or.inl h)

theorem recLE_trans (a b c : FinancialRecord)
    (h1 : recLE a b = true) (h2 : recLE b c = true) : recLE a c = true := by
  simp only [recLE, decide_eq_true_eq] at h1 h2 ⊢
  exact keyLE_trans _ _ _ h1 h2

theorem recLE_total (a b : FinancialRecord) : (recLE a b || recLE b a) = true := by
  simp only [recLE, Bool.or_eq_true, decide_eq_true_eq]
  exact keyLE_total _ _

theorem length_periodRecordsReal (n t : String) (qi : StmtTable)
    (qb qc : Option StmtTable) : (periodRecordsReal n t qi qb qc).length ≤ 8 :=
  le_trans (List.length_filterMap_le _ _) (List.length_take_le _ _)

theorem length_processTickerReal (fetch : String → Fetch) (t n : String) :
    (processTickerReal fetch t n).length ≤ 8 := by
  cases hf : fetch t with
  | err => simp [processTickerReal, hf]
  | ok s =>
    cases hi : s.income with
    | none => simp [processTickerReal, hf, hi]
    | some qi =>
      by_cases he : qi.isEmpty = true <;>
        simp [processTickerReal, hf, hi, he, length_periodRecordsReal]

theorem length_runReal (fetch : String → Fetch) (cs : List (String × String)) :
    (runReal fetch cs).length ≤ cs.length * 8 := by
  induction cs with
  | nil => simp [runReal]
  | cons c cs ih =>
    simp only [runReal, List.flatMap_cons, List.length_append, List.length_cons] at *
    have := length_processTickerReal fetch c.1 c.2
    omega

theorem length_periodRowsSector (row : String → String → StmtTable → Date → SectorRow)
    (n t : String) (qi : StmtTable) : (periodRowsSector row n t qi).length ≤ 6 :=
  le_trans (List.length_filterMap_le _ _) (List.length_take_le _ _)

theorem length_processTickerSector (row : String → String → StmtTable → Date → SectorRow)
    (fetch : String → Fetch) (t n : String) :
    (processTickerSector row fetch t n).length ≤ 6 := by
  cases hf : fetch t with
  | err => simp [processTickerSector, hf]
  | ok s =>
    cases hi : s.income with
    | none => simp [processTickerSector, hf, hi]
    | some qi =>
      by_cases he : qi.isEmpty = true <;>
        simp [processTickerSector, hf, hi, he, length_periodRowsSector]

theorem length_runSector (row : String → String → StmtTable → Date → SectorRow)
    (fetch : String → Fetch) (cs : List (String × String)) :
    (runSector row fetch cs).length ≤ cs.length * 6 := by
  induction cs with
  | nil => simp [runSector]
  | cons c cs ih =>
    simp only [runSector, List.flatMap_cons, List.length_append, List.length_cons] at *
    have := length_processTickerSector row fetch c.1 c.2
    omega

theorem mem_runSector {row : String → String → StmtTable → Date → SectorRow}
    {fetch : String → Fetch} {cs : List (String × String)} {r : SectorRow}
    (h : r ∈ runSector row fetch cs) :
    ∃ name ticker qi d, r = row name ticker qi d := by
  simp only [runSector, List.mem_flatMap] at h
  obtain ⟨c, _, hc⟩ := h
  cases hf : fetch c.1 with
  | err => simp [processTickerSector, hf] at hc
  | ok s =>
    cases hi : s.income with
    | none => simp [processTickerSector, hf, hi] at hc
    | some qi =>
      by_cases he : qi.isEmpty = true
      · simp [processTickerSector, hf, hi, he] at hc
      · simp [processTickerSector, hf, hi, he, periodRowsSector,
          List.mem_filterMap] at hc
        obtain ⟨p, _, hp⟩ := hc
        cases p with
        | malformed => simp at hp
        | valid d =>
          refine ⟨c.2, c.1, qi, d, ?_⟩
          injection hp with h2
          exact h2.symm

/-- A concrete reporting date used to instantiate the theorems. -/
def wDate : Date := ⟨2024, 2, 15⟩

/-- A concrete income statement with a single period and a single row
(Total Revenue = 7), used to instantiate the theorems. -/
def wIncome : StmtTable :=
  { index := ["Total Revenue"]
    cols := [Period.valid wDate]
    cell := fun _ _ => PyVal.num 7 }

/-- C1: for every produced FinancialRecord, each derived ratio field
(gross margin, operating margin, net margin in the single-list variant;
those plus R&D intensity in the technology records of the multi-sector
variant) is either absent or equals the corresponding numerator divided by
the revenue denominator, and is never a computed value when the denominator
is absent or zero. -/
theorem c1_derived_ratio_fields (name ticker : String) (qi : StmtTable)
    (qb qc : Option StmtTable) (d : Date) :
    ratioOK (lookupItem qi "Gross Profit" (Period.valid d))
      (lookupItem qi "Total Revenue" (Period.valid d))
      (realRow name ticker qi qb qc d).gross_margin ∧
    ratioOK (lookupItem qi "Operating Income" (Period.valid d))
      (lookupItem qi "Total Revenue" (Period.valid d))
      (realRow name ticker qi qb qc d).operating_margin ∧
    ratioOK (lookupItem qi "Net Income" (Period.valid d))
      (lookupItem qi "Total Revenue" (Period.valid d))
      (realRow name ticker qi qb qc d).net_margin ∧
    ratioOK (lookupItem qi "Gross Profit" (Period.valid d))
      (lookupItem qi "Total Revenue" (Period.valid d))
      (entryVal (techRow name ticker qi d) "Gross_Margin") ∧
    ratioOK (lookupItem qi "Operating Income" (Period.valid d))
      (lookupItem qi "Total Revenue" (Period.valid d))
      (entryVal (techRow name ticker qi d) "Operating_Margin") ∧
    ratioOK (lookupItem qi "Net Income" (Period.valid d))
      (lookupItem qi "Total Revenue" (Period.valid d))
      (entryVal (techRow name ticker qi d) "Net_Margin") ∧
    ratioOK (lookupItem qi "Research And Development" (Period.valid d))
      (lookupItem qi "Total Revenue" (Period.valid d))
      (entryVal (techRow name ticker qi d) "RD_Intensity") :=
  ⟨ratioOK_float_ratioIf _ _, ratioOK_float_ratioIf _ _, ratioOK_float_ratioIf _ _,
   ratioOK_ratioIf _ _, ratioOK_ratioIf _ _, ratioOK_ratioIf _ _, ratioOK_ratioIf _ _⟩

/-- Witness for C1 at a concrete record. -/
theorem c1_derived_ratio_fields_witness :
    ratioOK (lookupItem wIncome "Gross Profit" (Period.valid wDate))
      (lookupItem wIncome "Total Revenue" (Period.valid wDate))
      (realRow "Apple Inc" "AAPL" wIncome Option.none Option.none wDate).gross_margin :=
  (c1_derived_ratio_fields "Apple Inc" "AAPL" wIncome Option.none Option.none wDate).1

/-- C4: the quarter label of every record is derived from the period's
calendar month as "Q" followed by ((month - 1) div 3) + 1, so months 1-3
yield "Q1", 4-6 yield "Q2", 7-9 yield "Q3" and 10-12 yield "Q4",
independently of the year. -/
theorem c4_quarter_label_ranges (name ticker : String) (qi : StmtTable)
    (qb qc : Option StmtTable) (d : Date)
    (h1 : 1 ≤ d.month) (h2 : d.month ≤ 12) :
    (realRow name ticker qi qb qc d).quarter = quarterLabel d.month ∧
    entryOf (techRow name ticker qi d) "Quarter" =
      some (EntryVal.str (quarterLabel d.month)) ∧
    quarterLabel d.month = "Q" ++ toString ((d.month - 1) / 3 + 1) ∧
    (d.month ≤ 3 → quarterLabel d.month = "Q1") ∧
    (4 ≤ d.month → d.month ≤ 6 → quarterLabel d.month = "Q2") ∧
    (7 ≤ d.month → d.month ≤ 9 → quarterLabel d.month = "Q3") ∧
    (10 ≤ d.month → quarterLabel d.month = "Q4") := by
  have key : ∀ mm : ℕ, 1 ≤ mm → mm ≤ 12 →
      (mm ≤ 3 → quarterLabel mm = "Q1") ∧
      (4 ≤ mm → mm ≤ 6 → quarterLabel mm = "Q2") ∧
      (7 ≤ mm → mm ≤ 9 → quarterLabel mm = "Q3") ∧
      (10 ≤ mm → quarterLabel mm = "Q4") := by
    intro mm hm1 hm2
    interval_cases mm <;> refine ⟨?_, ?_, ?_, ?_⟩ <;> decide
  exact ⟨rfl, rfl, rfl, key d.month h1 h2⟩

/-- Witness for C4: a February period is labelled "Q1". -/
theorem c4_quarter_label_ranges_witness :
    (realRow "Apple Inc" "AAPL" wIncome Option.none Option.none wDate).quarter = "Q1" := by
  have h := c4_quarter_label_ranges "Apple Inc" "AAPL" wIncome Option.none Option.none wDate
    (by decide) (by decide)
  exact h.1.trans (h.2.2.2.1 (by decide))

/-- C5: in every run, the number of produced records is at most the number
of tickers in the fixed mapping times the period window size: 8 for the
single-list variant and 6 for every sector of the multi-sector variant. -/
theorem c5_record_count_bound (fetch : String → Fetch) :
    (runReal fetch realCompanies).length ≤ realCompanies.length * 8 ∧
    (runSector techRow fetch techCompanies).length ≤ techCompanies.length * 6 ∧
    (runSector healthcareRow fetch healthcareCompanies).length ≤
      healthcareCompanies.length * 6 ∧
    (runSector financialRow fetch financialCompanies).length ≤
      financialCompanies.length * 6 ∧
    (runSector consumerRow fetch consumerCompanies).length ≤
      consumerCompanies.length * 6 ∧
    (runSector energyRow fetch energyCompanies).length ≤ energyCompanies.length * 6 :=
  ⟨length_runReal fetch realCompanies,
   length_runSector techRow fetch techCompanies,
   length_runSector healthcareRow fetch healthcareCompanies,
   length_runSector financialRow fetch financialCompanies,
   length_runSector consumerRow fetch consumerCompanies,
   length_runSector energyRow fetch energyCompanies⟩

/-- Witness for C5 at a concrete provider that fails every fetch. -/
theorem c5_record_count_bound_witness :
    (runReal (fun _ => Fetch.err) realCompanies).length ≤ realCompanies.length * 8 :=
  (c5_record_count_bound (fun _ => Fetch.err)).1

/-- First period of the C2 counterexample (May 2024). -/
def cexP1 : Period := Period.valid ⟨2024, 5, 15⟩

/-- Second period of the C2 counterexample (February 2024). -/
def cexP2 : Period := Period.valid ⟨2024, 2, 15⟩

/-- The rational 21/2, written with an explicit constructor so that all
fields are literals. -/
def ratTwentyOneHalves : ℚ := ⟨21, 2, by decide, by decide⟩

/-- Income statement for the C2 counterexample: an explicit EBITDA row
whose value is missing (NaN) in the first period and 21/2 in the second,
with operating income 5 and revenue 20 present in both. -/
def cexIncomeC2 : StmtTable :=
  { index := ["Total Revenue", "Operating Income", "EBITDA"]
    cols := [cexP1, cexP2]
    cell := fun label p =>
      if label = "EBITDA" then
        (if p = cexP1 then PyVal.nan else PyVal.num ratTwentyOneHalves)
      else if label = "Operating Income" then PyVal.num 5
      else PyVal.num 20 }

/-- Provider for the C2 counterexample: only AAPL has data. -/
def cexFetchC2 : String → Fetch :=
  fun t =>
    if t = "AAPL" then Fetch.ok ⟨some cexIncomeC2, Option.none, Option.none⟩
    else Fetch.err

/-- Counterexample to C2 as stated.  In the first produced record the
explicit EBITDA value is missing (NaN) while operating income is present
(5), yet the EBITDA field is absent instead of the claimed operating-income
fallback: the code branches on the presence of the EBITDA row, not of its
value.  In the second record the explicit value 21/2 is present but the
stored field is its integer truncation 10, not the value itself. -/
theorem c2_ebitda_counterexample :
    (runReal cexFetchC2 realCompanies).map FinancialRecord.ebitda =
      [Option.none, some 10] ∧
    (cexIncomeC2.cell "EBITDA" cexP1).notna = false ∧
    lookupItem cexIncomeC2 "Operating Income" cexP1 = PyVal.num 5 ∧
    cexIncomeC2.cell "EBITDA" cexP2 = PyVal.num ratTwentyOneHalves ∧
    ratTwentyOneHalves ≠ (10 : ℚ) := by
  refine ⟨?_, ?_, ?_, ?_, ?_⟩ <;> decide

/-- C2 (amended): in the single-list variant, when the income statement has
an explicit EBITDA row the EBITDA field is the integer truncation of that
row's value for the period and is absent when that value is missing, with
no fallback; when there is no EBITDA row, the field is the integer
truncation of the operating-income value when present, otherwise absent. -/
theorem c2_ebitda_amended (name ticker : String) (qi : StmtTable)
    (qb qc : Option StmtTable) (d : Date) :
    ("EBITDA" ∈ qi.index →
      truncOK (qi.cell "EBITDA" (Period.valid d))
        (realRow name ticker qi qb qc d).ebitda) ∧
    ("EBITDA" ∉ qi.index →
      truncOK (lookupItem qi "Operating Income" (Period.valid d))
        (realRow name ticker qi qb qc d).ebitda) := by
  have hrec : (realRow name ticker qi qb qc d).ebitda =
      intField (ebitdaVal qi (Period.valid d)) := rfl
  constructor
  · intro hmem
    have hval : ebitdaVal qi (Period.valid d) = qi.cell "EBITDA" (Period.valid d) := by
      simp [ebitdaVal, hmem]
    rw [hrec, hval]
    exact truncOK_intField _
  · intro hmem
    have hval : ebitdaVal qi (Period.valid d) =
        lookupItem qi "Operating Income" (Period.valid d) := by
      by_cases hop : lookupItem qi "Operating Income" (Period.valid d) = PyVal.none
      · simp [ebitdaVal, hmem, hop]
      · simp [ebitdaVal, hmem, hop]
    rw [hrec, hval]
    exact truncOK_intField _

/-- Income statement with an explicit EBITDA row, for the C2 witness. -/
def wIncomeEB : StmtTable :=
  { index := ["Total Revenue", "EBITDA"]
    cols := [Period.valid wDate]
    cell := fun _ _ => PyVal.num 7 }

/-- Witness for the amended C2 at a concrete table with an EBITDA row. -/
theorem c2_ebitda_amended_witness :
    truncOK (wIncomeEB.cell "EBITDA" (Period.valid wDate))
      (realRow "Apple Inc" "AAPL" wIncomeEB Option.none Option.none wDate).ebitda :=
  (c2_ebitda_amended "Apple Inc" "AAPL" wIncomeEB Option.none Option.none wDate).1
    (by decide)

/-- Newest period of the C3 counterexample. -/
def cexDateNew : Date := ⟨2025, 3, 31⟩

/-- Older period of the C3 counterexample. -/
def cexDateOld : Date := ⟨2024, 12, 31⟩

/-- Income statement for the C3 counterexample: two periods in
provider order, newest first. -/
def cexIncomeC3 : StmtTable :=
  { index := ["Total Revenue"]
    cols := [Period.valid cexDateNew, Period.valid cexDateOld]
    cell := fun _ _ => PyVal.num 9 }

/-- Provider for the C3 counterexample: only AAPL has data. -/
def cexFetchC3 : String → Fetch :=
  fun t =>
    if t = "AAPL" then Fetch.ok ⟨some cexIncomeC3, Option.none, Option.none⟩
    else Fetch.err

/-- Counterexample to C3 as stated: the multi-sector variant writes each
sector's records in accumulation order with no sort, so with periods
arriving newest-first the written technology sequence is not sorted by
company name, year and quarter label (here the 2025 record precedes the
2024 record of the same company). -/
theorem c3_sorted_counterexample :
    ¬ List.Pairwise (fun a b => rowLE a b = true)
        (runSector techRow cexFetchC3 techCompanies) := by
  intro h
  have hlist : runSector techRow cexFetchC3 techCompanies =
      [techRow "Apple Inc" "AAPL" cexIncomeC3 cexDateNew,
       techRow "Apple Inc" "AAPL" cexIncomeC3 cexDateOld] := rfl
  rw [hlist] at h
  have h12 : rowLE (techRow "Apple Inc" "AAPL" cexIncomeC3 cexDateNew)
      (techRow "Apple Inc" "AAPL" cexIncomeC3 cexDateOld) = true :=
    (List.pairwise_cons.mp h).1 _ (by simp)
  have hk := of_decide_eq_true h12
  have hkNew : rowKey (techRow "Apple Inc" "AAPL" cexIncomeC3 cexDateNew) =
      ("Apple Inc", (2025 : ℤ), "Q1") := rfl
  have hkOld : rowKey (techRow "Apple Inc" "AAPL" cexIncomeC3 cexDateOld) =
      ("Apple Inc", (2024 : ℤ), "Q4") := rfl
  rw [hkNew, hkOld] at hk
  simp only [keyLE] at hk
  rcases hk with hlt | ⟨heq, hin⟩
  · exact absurd hlt (lt_irrefl _)
  · rcases hin with hlt2 | ⟨heq2, _⟩
    · omega
    · omega

/-- C3 (amended): in the single-list variant the accumulated records are
sorted by company name, then year, then quarter label before the output
file is written; the multi-sector variant writes each sector's records in
accumulation order without sorting. -/
theorem c3_sorted_output (fetch : String → Fetch) :
    List.Pairwise (fun a b => recLE a b = true) (outputReal fetch) := by
  unfold outputReal sortRecords
  exact List.sorted_mergeSort recLE_trans recLE_total _

/-- Witness for the amended C3 at a concrete provider. -/
theorem c3_sorted_output_witness :
    List.Pairwise (fun a b => recLE a b = true) (outputReal (fun _ => Fetch.err)) :=
  c3_sorted_output (fun _ => Fetch.err)

/-- C6: a ticker whose income statement is absent or empty produces zero
records, is skipped without raising (the model stays total and yields the
empty list), and the run continues with the remaining tickers unchanged,
in both variants. -/
theorem c6_empty_income_skips_ticker (fetch : String → Fetch) (t n : String)
    (s : Statements) (hf : fetch t = Fetch.ok s)
    (h : s.income = Option.none ∨ ∃ qi, s.income = some qi ∧ qi.isEmpty = true) :
    processTickerReal fetch t n = [] ∧
    (∀ row : String → String → StmtTable → Date → SectorRow,
      processTickerSector row fetch t n = []) ∧
    (∀ pre post : List (String × String),
      runReal fetch (pre ++ (t, n) :: post) = runReal fetch pre ++ runReal fetch post) := by
  have hreal : processTickerReal fetch t n = [] := by
    rcases h with h | ⟨qi, hqi, he⟩
    · simp [processTickerReal, hf, h]
    · simp [processTickerReal, hf, hqi, he]
  refine ⟨hreal, ?_, ?_⟩
  · intro row
    rcases h with h | ⟨qi, hqi, he⟩
    · simp [processTickerSector, hf, h]
    · simp [processTickerSector, hf, hqi, he]
  · intro pre post
    simp [runReal, List.flatMap_append, List.flatMap_cons, hreal]

/-- Statements value with no income table, for the C6 witness. -/
def wStatementsEmpty : Statements := ⟨Option.none, Option.none, Option.none⟩

/-- Provider for the C6 witness: JPM answers with no income table. -/
def wFetchC6 : String → Fetch :=
  fun t => if t = "JPM" then Fetch.ok wStatementsEmpty else Fetch.err

/-- Witness for C6 at a concrete ticker with no income data. -/
theorem c6_empty_income_skips_ticker_witness :
    processTickerReal wFetchC6 "JPM" "JPMorgan Chase" = [] :=
  (c6_empty_income_skips_ticker wFetchC6 "JPM" "JPMorgan Chase" wStatementsEmpty
    (by simp [wFetchC6]) (Or.inl rfl)).1

/-- C7: a malformed period column produces no record and leaves the
records of the other periods of the ticker unchanged: the period loop's
output splits around the failed period, in both variants. -/
theorem c7_malformed_period_skipped (name ticker : String) (qi : StmtTable)
    (qb qc : Option StmtTable) (l1 l2 : List Period) :
    processPeriodReal name ticker qi qb qc Period.malformed = Option.none ∧
    (qi.cols.take 8 = l1 ++ Period.malformed :: l2 →
      periodRecordsReal name ticker qi qb qc =
        l1.filterMap (processPeriodReal name ticker qi qb qc) ++
        l2.filterMap (processPeriodReal name ticker qi qb qc)) ∧
    (qi.cols.take 6 = l1 ++ Period.malformed :: l2 →
      ∀ row : String → String → StmtTable → Date → SectorRow,
        periodRowsSector row name ticker qi =
          l1.filterMap (fun p =>
            match p with
            | Period.valid d => some (row name ticker qi d)
            | Period.malformed => Option.none) ++
          l2.filterMap (fun p =>
            match p with
            | Period.valid d => some (row name ticker qi d)
            | Period.malformed => Option.none)) := by
  refine ⟨rfl, ?_, ?_⟩
  · intro h
    unfold periodRecordsReal
    rw [h, List.filterMap_append]
    simp [processPeriodReal]
  · intro h row
    unfold periodRowsSector
    rw [h, List.filterMap_append]
    simp

/-- Income statement whose second period column is malformed, for the C7
witness. -/
def wIncomeMal : StmtTable :=
  { index := ["Total Revenue"]
    cols := [Period.valid wDate, Period.malformed]
    cell := fun _ _ => PyVal.num 7 }

/-- Witness for C7: with one valid and one malformed period, the period
loop yields exactly the records of the valid period. -/
theorem c7_malformed_period_skipped_witness :
    periodRecordsReal "Apple Inc" "AAPL" wIncomeMal Option.none Option.none =
      [Period.valid wDate].filterMap
        (processPeriodReal "Apple Inc" "AAPL" wIncomeMal Option.none Option.none) ++
      List.filterMap
        (processPeriodReal "Apple Inc" "AAPL" wIncomeMal Option.none Option.none) [] :=
  (c7_malformed_period_skipped "Apple Inc" "AAPL" wIncomeMal Option.none Option.none
    [Period.valid wDate] []).2.1 (by decide)

/-- C8: the document synthesizer hands its flowables to the renderer in
exactly the order they are declared, and the sequence contains exactly one
explicit page break. -/
theorem c8_block_order :
    elementsFinal = declaredBlocks ∧ elementsFinal.count Flowable.pageBreak = 1 :=
  ⟨rfl, rfl⟩

/-- C9: every present raw line-item field is the integer truncation of its
source value and absent source values (None or NaN) yield absent fields,
never zero; every derived ratio is computed from the untruncated source
values and stored as an exact fraction. -/
theorem c9_truncation_and_absence (name ticker : String) (qi : StmtTable)
    (qb qc : Option StmtTable) (d : Date) :
    truncOK (lookupItem qi "Total Revenue" (Period.valid d))
      (realRow name ticker qi qb qc d).revenue ∧
    truncOK (lookupItem qi "Gross Profit" (Period.valid d))
      (realRow name ticker qi qb qc d).gross_profit ∧
    truncOK (ebitdaVal qi (Period.valid d))
      (realRow name ticker qi qb qc d).ebitda ∧
    truncOK (lookupItem qi "Operating Income" (Period.valid d))
      (realRow name ticker qi qb qc d).operating_income ∧
    truncOK (lookupItem qi "Net Income" (Period.valid d))
      (realRow name ticker qi qb qc d).net_income ∧
    truncOK (lookupOpt qb "Total Assets" (Period.valid d))
      (realRow name ticker qi qb qc d).total_assets ∧
    truncOK (lookupOpt qb "Total Debt" (Period.valid d))
      (realRow name ticker qi qb qc d).total_debt ∧
    truncOK (lookupOpt qc "Operating Cash Flow" (Period.valid d))
      (realRow name ticker qi qb qc d).operating_cashflow ∧
    truncOK (lookupOpt qc "Free Cash Flow" (Period.valid d))
      (realRow name ticker qi qb qc d).free_cashflow ∧
    truncOK (lookupItem qi "Research And Development" (Period.valid d))
      (entryInt (techRow name ticker qi d) "RD_Expense") ∧
    fromUntruncated (lookupItem qi "Gross Profit" (Period.valid d))
      (lookupItem qi "Total Revenue" (Period.valid d))
      (realRow name ticker qi qb qc d).gross_margin ∧
    fromUntruncated (lookupItem qi "Operating Income" (Period.valid d))
      (lookupItem qi "Total Revenue" (Period.valid d))
      (realRow name ticker qi qb qc d).operating_margin ∧
    fromUntruncated (lookupItem qi "Net Income" (Period.valid d))
      (lookupItem qi "Total Revenue" (Period.valid d))
      (realRow name ticker qi qb qc d).net_margin ∧
    fromUntruncated (lookupItem qi "Research And Development" (Period.valid d))
      (lookupItem qi "Total Revenue" (Period.valid d))
      (entryVal (techRow name ticker qi d) "RD_Intensity") :=
  ⟨truncOK_intField _, truncOK_intField _, truncOK_intField _, truncOK_intField _,
   truncOK_intField _, truncOK_intField _, truncOK_intField _, truncOK_intField _,
   truncOK_intField _, truncOK_intField _,
   fromUntruncated_float_ratioIf _ _, fromUntruncated_float_ratioIf _ _,
   fromUntruncated_float_ratioIf _ _, fromUntruncated_ratioIf _ _⟩

/-- Witness for C9 at a concrete record. -/
theorem c9_truncation_and_absence_witness :
    truncOK (lookupItem wIncome "Total Revenue" (Period.valid wDate))
      (realRow "Apple Inc" "AAPL" wIncome Option.none Option.none wDate).revenue :=
  (c9_truncation_and_absence "Apple Inc" "AAPL" wIncome Option.none Option.none wDate).1

/-- C10: every record of each sector carries exactly that sector's fixed
field list: healthcare records have no operating-income or operating-margin
field, financial records have no gross-profit, gross-margin or R&D fields,
energy records have no operating-income field, and no sector record ever
contains EBITDA, total-assets, total-debt or cash-flow fields. -/
theorem c10_sector_field_subsets (fetch : String → Fetch) :
    (∀ r ∈ runSector techRow fetch techCompanies,
      r.map Prod.fst = ["Company", "Ticker", "Quarter", "Year", "Date", "Revenue",
        "Gross_Profit", "Operating_Income", "Net_Income", "RD_Expense",
        "Gross_Margin", "Operating_Margin", "Net_Margin", "RD_Intensity"] ∧
      "EBITDA" ∉ r.map Prod.fst ∧ "Total_Assets" ∉ r.map Prod.fst ∧
      "Total_Debt" ∉ r.map Prod.fst ∧ "Operating_Cashflow" ∉ r.map Prod.fst ∧
      "Free_Cashflow" ∉ r.map Prod.fst) ∧
    (∀ r ∈ runSector healthcareRow fetch healthcareCompanies,
      r.map Prod.fst = ["Company", "Ticker", "Quarter", "Year", "Date", "Revenue",
        "Gross_Profit", "Net_Income", "RD_Expense", "Gross_Margin", "Net_Margin"] ∧
      "Operating_Income" ∉ r.map Prod.fst ∧ "Operating_Margin" ∉ r.map Prod.fst ∧
      "EBITDA" ∉ r.map Prod.fst ∧ "Total_Assets" ∉ r.map Prod.fst ∧
      "Total_Debt" ∉ r.map Prod.fst ∧ "Operating_Cashflow" ∉ r.map Prod.fst ∧
      "Free_Cashflow" ∉ r.map Prod.fst) ∧
    (∀ r ∈ runSector financialRow fetch financialCompanies,
      r.map Prod.fst = ["Company", "Ticker", "Quarter", "Year", "Date", "Revenue",
        "Operating_Income", "Net_Income", "Operating_Margin", "Net_Margin"] ∧
      "Gross_Profit" ∉ r.map Prod.fst ∧ "Gross_Margin" ∉ r.map Prod.fst ∧
      "RD_Expense" ∉ r.map Prod.fst ∧ "RD_Intensity" ∉ r.map Prod.fst ∧
      "EBITDA" ∉ r.map Prod.fst ∧ "Total_Assets" ∉ r.map Prod.fst ∧
      "Total_Debt" ∉ r.map Prod.fst ∧ "Operating_Cashflow" ∉ r.map Prod.fst ∧
      "Free_Cashflow" ∉ r.map Prod.fst) ∧
    (∀ r ∈ runSector consumerRow fetch consumerCompanies,
      r.map Prod.fst = ["Company", "Ticker", "Quarter", "Year", "Date", "Revenue",
        "Gross_Profit", "Operating_Income", "Net_Income", "Gross_Margin",
        "Operating_Margin", "Net_Margin"] ∧
      "EBITDA" ∉ r.map Prod.fst ∧ "Total_Assets" ∉ r.map Prod.fst ∧
      "Total_Debt" ∉ r.map Prod.fst ∧ "Operating_Cashflow" ∉ r.map Prod.fst ∧
      "Free_Cashflow" ∉ r.map Prod.fst) ∧
    (∀ r ∈ runSector energyRow fetch energyCompanies,
      r.map Prod.fst = ["Company", "Ticker", "Quarter", "Year", "Date", "Revenue",
        "Gross_Profit", "Net_Income", "Gross_Margin", "Net_Margin"] ∧
      "Operating_Income" ∉ r.map Prod.fst ∧
      "EBITDA" ∉ r.map Prod.fst ∧ "Total_Assets" ∉ r.map Prod.fst ∧
      "Total_Debt" ∉ r.map Prod.fst ∧ "Operating_Cashflow" ∉ r.map Prod.fst ∧
      "Free_Cashflow" ∉ r.map Prod.fst) := by
  refine ⟨?_, ?_, ?_, ?_, ?_⟩ <;>
    · intro r hr
      obtain ⟨nm, tk, qi, dd, rfl⟩ := mem_runSector hr
      refine ⟨rfl, ?_⟩
      dsimp only [techRow, healthcareRow, financialRow, consumerRow, energyRow,
        List.map_cons, List.map_nil]
      decide

/-- Provider for the C10 witness: only JNJ has data. -/
def wFetchC10 : String → Fetch :=
  fun t => if t = "JNJ" then Fetch.ok ⟨some wIncome, Option.none, Option.none⟩ else Fetch.err

/-- Witness for C10 at a concrete healthcare record. -/
theorem c10_sector_field_subsets_witness :
    (healthcareRow "Johnson & Johnson" "JNJ" wIncome wDate).map Prod.fst =
      ["Company", "Ticker", "Quarter", "Year", "Date", "Revenue",
       "Gross_Profit", "Net_Income", "RD_Expense", "Gross_Margin", "Net_Margin"] ∧
    "Operating_Income" ∉
      (healthcareRow "Johnson & Johnson" "JNJ" wIncome wDate).map Prod.fst ∧
    "Operating_Margin" ∉
      (healthcareRow "Johnson & Johnson" "JNJ" wIncome wDate).map Prod.fst ∧
    "EBITDA" ∉ (healthcareRow "Johnson & Johnson" "JNJ" wIncome wDate).map Prod.fst ∧
    "Total_Assets" ∉
      (healthcareRow "Johnson & Johnson" "JNJ" wIncome wDate).map Prod.fst ∧
    "Total_Debt" ∉
      (healthcareRow "Johnson & Johnson" "JNJ" wIncome wDate).map Prod.fst ∧
    "Operating_Cashflow" ∉
      (healthcareRow "Johnson & Johnson" "JNJ" wIncome wDate).map Prod.fst ∧
    "Free_Cashflow" ∉
      (healthcareRow "Johnson & Johnson" "JNJ" wIncome wDate).map Prod.fst :=
  (c10_sector_field_subsets wFetchC10).2.1
    (healthcareRow "Johnson & Johnson" "JNJ" wIncome wDate) (by decide)

end CsvQuery
